import Mathlib

/-!
# Verification of the investment growth-projection core (`src/api/main.py`)

Shallow embedding of the numeric core of the FastAPI investment grapher:
the two growth calculators (`compound_interest`, `sip_growth`), the
number-abbreviation formatter (`abbreviate_large_numbers`), the projection
series builder loops inside `calculate_investments`, and the color lookup
performed by `generate_graph`.

Python floats are modelled by exact rationals (`ℚ`); a Python
`ZeroDivisionError` / `KeyError` fault is modelled by `Option` with `none`
standing for the uncaught exception.
-/

namespace FastApiGrapher

/-- `compound_interest(principal, rate, time)` from `src/api/main.py`:
`principal * (1 + rate) ** time`.  The `time` argument is always fed integer
year counts by the caller, so it is embedded as `ℕ`. -/
def compound_interest (principal rate : ℚ) (time : ℕ) : ℚ :=
  principal * (1 + rate) ^ time

/-- `sip_growth(monthly_investment, rate, time)` from `src/api/main.py`.
The Python body divides by `monthly_rate = rate / 12`; when `rate == 0` the
division raises an uncaught `ZeroDivisionError`, modelled by `none`. -/
def sip_growth (monthly_investment rate : ℚ) (time : ℕ) : Option ℚ :=
  let monthly_rate := rate / 12
  let months := time * 12
  if monthly_rate = 0 then none
  else some (monthly_investment * (((1 + monthly_rate) ^ months - 1) / monthly_rate)
    * (1 + monthly_rate))

/-- Rounding of a rational to the nearest integer with ties to even, the
rounding used by Python `format(x, '.1f')` on exactly representable values. -/
def roundHalfEven (q : ℚ) : ℤ :=
  let n := ⌊q⌋
  let frac := q - n
  if frac < 1/2 then n
  else if 1/2 < frac then n + 1
  else if n % 2 = 0 then n else n + 1

/-- Python fixed-point formatting `f"{q:.{decimals}f}"` (for the exactly
representable inputs that arise here): scale by `10 ^ decimals`, round half
to even, print with the decimal point reinserted. -/
def formatFixed (decimals : ℕ) (q : ℚ) : String :=
  let scaled := roundHalfEven (q * (10 : ℚ) ^ decimals)
  if decimals = 0 then toString scaled
  else
    let a := scaled.natAbs
    let intPart := a / 10 ^ decimals
    let fracPart := a % 10 ^ decimals
    let fracStr := toString fracPart
    let fracPad := String.mk (List.replicate (decimals - fracStr.length) '0') ++ fracStr
    (if scaled < 0 then "-" else "") ++ toString intPart ++ "." ++ fracPad

/-- `abbreviate_large_numbers(x, pos)` from `src/api/main.py` (the unused
`pos` argument required by matplotlib's `FuncFormatter` is dropped):
`"$…M"` for `x >= 1_000_000`, `"$…k"` for `x >= 1_000`, else `"$…"` with no
decimals. -/
def abbreviate_large_numbers (x : ℚ) : String :=
  if 1000000 ≤ x then "$" ++ formatFixed 1 (x / 1000000) ++ "M"
  else if 1000 ≤ x then "$" ++ formatFixed 1 (x / 1000) ++ "k"
  else "$" ++ formatFixed 0 x

/-- Python `int(q)` on a rational value: truncation toward zero. -/
def pyInt (q : ℚ) : ℤ := q.num.tdiv (q.den : ℤ)

/-- The rate label `f"{int(rate * 100)}%"` built inside the loops of
`calculate_investments`. -/
def rateLabelOf (rate : ℚ) : String := toString (pyInt (rate * 100)) ++ "%"

/-- One record of the tabular series `{"Year": …, "Amount": …, "Rate": …}`
that `calculate_investments` builds as three parallel lists (embedded here
as a single list of zipped records). -/
structure ProjectionPoint where
  year : ℕ
  amount : ℚ
  rateLabel : String
deriving DecidableEq, Repr

/-- `time_years = np.arange(1, 26)` in `calculate_investments`. -/
def time_years : List ℕ := List.range' 1 25

/-- `rates = [0.10, 0.12, 0.15]` in `calculate_investments` (the decimal
values the float literals denote, exactly). -/
def rates : List ℚ := [10/100, 12/100, 15/100]

/-- `colors = {"10%": "blue", "12%": "yellow", "15%": "red"}` in
`calculate_investments`, as an association list in insertion order. -/
def colors : List (String × String) := [("10%", "blue"), ("12%", "yellow"), ("15%", "red")]

/-- The lump-sum branch of `calculate_investments`: if `lump > 0`, the
rate-outer / year-inner loop appending one row per `(rate, year)` pair with
amount `compound_interest(lump, rate, year)`; otherwise `lump_data` stays
empty. -/
def lump_series (lump : ℚ) (rs : List ℚ) (ys : List ℕ) : List ProjectionPoint :=
  if lump > 0 then
    rs.foldl (fun acc rate =>
      ys.foldl (fun acc2 year =>
        acc2 ++ [⟨year, compound_interest lump rate year, rateLabelOf rate⟩]) acc) []
  else []

/-- The SIP branch of `calculate_investments`: same loop shape with
`sip_growth(monthly, rate, year)`; a `ZeroDivisionError` raised by
`sip_growth` propagates out of the loop, modelled by the `Option` monad. -/
def sip_series (monthly : ℚ) (rs : List ℚ) (ys : List ℕ) : Option (List ProjectionPoint) :=
  if monthly > 0 then
    rs.foldlM (fun acc rate =>
      ys.foldlM (fun acc2 year =>
        (sip_growth monthly rate year).map
          (fun amount => acc2 ++ [⟨year, amount, rateLabelOf rate⟩])) acc) []
  else some []

/-- The color resolution `generate_graph` performs: for each label in
`data["Rate"].unique()` (first-occurrence order, embedded as `eraseDups`),
the dict subscript `colors[rate]`.  A label missing from the mapping raises
an uncaught `KeyError`, modelled by `none`; the function contains no other
error path for unmapped labels.  The rest of `generate_graph` is matplotlib
drawing and base64 encoding, outside the numeric core. -/
def generate_graph_colors (data : List ProjectionPoint)
    (colorMap : List (String × String)) : Option (List String) :=
  ((data.map ProjectionPoint.rateLabel).eraseDups).mapM (fun rate => colorMap.lookup rate)

/-- The value `sip_growth` returns whenever the division does not fault. -/
def sip_value (m rate : ℚ) (t : ℕ) : ℚ :=
  m * (((1 + rate / 12) ^ (t * 12) - 1) / (rate / 12)) * (1 + rate / 12)

theorem sip_growth_ne (m rate : ℚ) (t : ℕ) (h : rate ≠ 0) :
    sip_growth m rate t = some (sip_value m rate t) := by
  have h12 : ¬(rate / 12 = 0) := div_ne_zero h (by norm_num)
  simp [sip_growth, sip_value, h12]

theorem foldl_append_map {α β : Type} (f : α → β) (l : List α) (acc : List β) :
    l.foldl (fun a x => a ++ [f x]) acc = acc ++ l.map f := by
  induction l generalizing acc with
  | nil => simp
  | cons x xs ih => simp [ih]

theorem foldl2_append {α β γ : Type} (g : α → β → γ) (rs : List α) (ys : List β)
    (init : List γ) :
    rs.foldl (fun acc r => ys.foldl (fun a y => a ++ [g r y]) acc) init
      = init ++ rs.flatMap (fun r => ys.map (g r)) := by
  induction rs generalizing init with
  | nil => simp
  | cons r rs ih =>
    rw [List.foldl_cons, foldl_append_map, ih]
    simp [List.append_assoc]

theorem lump_series_pos (lump : ℚ) (h : 0 < lump) (rs : List ℚ) (ys : List ℕ) :
    lump_series lump rs ys = rs.flatMap (fun rate => ys.map (fun year =>
      (⟨year, compound_interest lump rate year, rateLabelOf rate⟩ : ProjectionPoint))) := by
  rw [lump_series, if_pos h, foldl2_append]
  simp

theorem sip_foldlM_inner (m rate : ℚ) (h : rate ≠ 0) (ys : List ℕ)
    (acc : List ProjectionPoint) :
    ys.foldlM (fun acc2 year =>
        (sip_growth m rate year).map
          (fun amount => acc2 ++ [⟨year, amount, rateLabelOf rate⟩])) acc
      = some (acc ++ ys.map (fun year =>
          (⟨year, sip_value m rate year, rateLabelOf rate⟩ : ProjectionPoint))) := by
  induction ys generalizing acc with
  | nil => simp
  | cons y ys ih => simp [List.foldlM_cons, sip_growth_ne m rate y h, Option.map_some', ih]

theorem sip_foldlM_outer (m : ℚ) (rs : List ℚ) (hr : ∀ r ∈ rs, r ≠ 0) (ys : List ℕ)
    (init : List ProjectionPoint) :
    rs.foldlM (fun acc rate =>
      ys.foldlM (fun acc2 year =>
        (sip_growth m rate year).map
          (fun amount => acc2 ++ [⟨year, amount, rateLabelOf rate⟩])) acc) init
      = some (init ++ rs.flatMap (fun rate => ys.map (fun year =>
          (⟨year, sip_value m rate year, rateLabelOf rate⟩ : ProjectionPoint)))) := by
  induction rs generalizing init with
  | nil => simp
  | cons r rs ih =>
    rw [List.foldlM_cons, sip_foldlM_inner m r (hr r (List.mem_cons_self r rs)) ys init]
    simp only [Option.bind_eq_bind, Option.some_bind]
    rw [ih (fun r' hr' => hr r' (List.mem_cons_of_mem r hr'))]
    simp

theorem sip_series_pos (m : ℚ) (hm : 0 < m) (rs : List ℚ) (hr : ∀ r ∈ rs, r ≠ 0)
    (ys : List ℕ) :
    sip_series m rs ys = some (rs.flatMap (fun rate => ys.map (fun year =>
      (⟨year, sip_value m rate year, rateLabelOf rate⟩ : ProjectionPoint)))) := by
  rw [sip_series, if_pos hm, sip_foldlM_outer m rs hr ys]
  simp

theorem rateLabelOf_ten : rateLabelOf (10/100) = "10%" := by
  have h : ((10:ℚ)/100 * 100) = 10 := by norm_num
  simp [rateLabelOf, pyInt, h]
  rfl

theorem rateLabelOf_twelve : rateLabelOf (12/100) = "12%" := by
  have h : ((12:ℚ)/100 * 100) = 12 := by norm_num
  simp [rateLabelOf, pyInt, h]
  rfl

theorem rateLabelOf_fifteen : rateLabelOf (15/100) = "15%" := by
  have h : ((15:ℚ)/100 * 100) = 15 := by norm_num
  simp [rateLabelOf, pyInt, h]
  rfl

/-- C1: calling `sip_growth` with `rate == 0` does NOT return
`monthlyContribution * years * 12`; the division `… / monthly_rate` raises an
uncaught `ZeroDivisionError` (`none`) for every contribution and every year
count.  This is the latent defect the spec flags and the claim, which states
the intended behavior, contradicts the code. -/
theorem sip_growth_zero_rate_faults (m : ℚ) (t : ℕ) : sip_growth m 0 t = none := by
  simp [sip_growth]

/-- C2: `compound_interest(principal, rate, years)` returns
`principal * (1 + rate) ^ years` for every non-negative principal, every
rate `> -1` and every integer `years ≥ 0`, and in particular returns exactly
the principal at `years = 0`. -/
theorem compound_interest_spec (p r : ℚ) (t : ℕ) (hp : 0 ≤ p) (hr : -1 < r) :
    compound_interest p r t = p * (1 + r) ^ t ∧ compound_interest p r 0 = p := by
  refine ⟨rfl, ?_⟩
  simp [compound_interest]

theorem compound_interest_spec_witness :
    compound_interest 10000 (1/10) 3 = 10000 * (1 + 1/10) ^ 3 ∧
      compound_interest 10000 (1/10) 0 = 10000 :=
  compound_interest_spec 10000 (1/10) 3 (by norm_num) (by norm_num)

/-- C3: for every contribution, every `rate ≠ 0` and every year count,
`sip_growth` returns the annuity-due value
`m * (((1 + rate/12) ^ (years*12) - 1) / (rate/12)) * (1 + rate/12)`
(monthly rate `rate/12`, month count `years*12`). -/
theorem sip_growth_formula (m r : ℚ) (t : ℕ) (hr : r ≠ 0) :
    sip_growth m r t
      = some (m * (((1 + r / 12) ^ (t * 12) - 1) / (r / 12)) * (1 + r / 12)) := by
  rw [sip_growth_ne m r t hr, sip_value]

theorem sip_growth_formula_witness :
    sip_growth 1 12 1
      = some (1 * (((1 + 12 / 12) ^ (1 * 12) - 1) / (12 / 12)) * (1 + 12 / 12)) :=
  sip_growth_formula 1 12 1 (by norm_num)

/-- C10: `sip_growth` with `years == 0` (and a non-zero rate, so the division
does not fault) returns `0`, not the contribution: the annuity factor
`(1 + monthlyRate) ^ 0 - 1` vanishes. -/
theorem sip_growth_zero_years (m r : ℚ) (hr : r ≠ 0) : sip_growth m r 0 = some 0 := by
  rw [sip_growth_ne m r 0 hr, sip_value]
  norm_num

theorem sip_growth_zero_years_witness : sip_growth 5 (1/10) 0 = some 0 :=
  sip_growth_zero_years 5 (1/10) (by norm_num)

/-- C4: for every non-negative value, `abbreviate_large_numbers` returns the
`"$…M"` form (quotient by `1_000_000`, one decimal) when the value is at
least `1_000_000`, the `"$…k"` form (quotient by `1_000`, one decimal) when
it is at least `1_000` and below `1_000_000`, and the plain zero-decimal
`"$…"` form otherwise; in particular `500 ↦ "$500"`, `1500 ↦ "$1.5k"` and
`2500000 ↦ "$2.5M"`. -/
theorem abbreviate_spec (x : ℚ) (hx : 0 ≤ x) :
    (1000000 ≤ x → abbreviate_large_numbers x = "$" ++ formatFixed 1 (x / 1000000) ++ "M") ∧
    (1000 ≤ x → x < 1000000 →
      abbreviate_large_numbers x = "$" ++ formatFixed 1 (x / 1000) ++ "k") ∧
    (x < 1000 → abbreviate_large_numbers x = "$" ++ formatFixed 0 x) ∧
    abbreviate_large_numbers 500 = "$500" ∧
    abbreviate_large_numbers 1500 = "$1.5k" ∧
    abbreviate_large_numbers 2500000 = "$2.5M" := by
  refine ⟨?_, ?_, ?_, ?_, ?_, ?_⟩
  · intro h; rw [abbreviate_large_numbers, if_pos h]
  · intro h1 h2; rw [abbreviate_large_numbers, if_neg (by linarith), if_pos h1]
  · intro h; rw [abbreviate_large_numbers, if_neg (by linarith), if_neg (by linarith)]
  · norm_num [abbreviate_large_numbers, formatFixed, roundHalfEven]; rfl
  · norm_num [abbreviate_large_numbers, formatFixed, roundHalfEven]; rfl
  · norm_num [abbreviate_large_numbers, formatFixed, roundHalfEven]; rfl

theorem abbreviate_spec_witness : abbreviate_large_numbers 1500 = "$1.5k" :=
  (abbreviate_spec 1500 (by norm_num)).2.2.2.2.1

/-- C5: for every rate list and every year range, a zero or negative input
amount yields an empty series in both the lump-sum branch and the
recurring-monthly (SIP) branch of `calculate_investments`. -/
theorem empty_series_nonpos (amount : ℚ) (rs : List ℚ) (ys : List ℕ)
    (h : amount ≤ 0) :
    lump_series amount rs ys = [] ∧ sip_series amount rs ys = some [] := by
  constructor
  · rw [lump_series, if_neg (not_lt.mpr h)]
  · rw [sip_series, if_neg (not_lt.mpr h)]

theorem empty_series_nonpos_witness :
    lump_series 0 rates time_years = [] ∧ sip_series 0 rates time_years = some [] :=
  empty_series_nonpos 0 rates time_years (by norm_num)

/-- C6: for every positive input amount, both series builders produce exactly
one point per `(rate, year)` pair over the fixed rates `0.10, 0.12, 0.15`
and years `1..25`, in rate-outer-loop / year-inner-loop insertion order,
with the rate labels `"10%"`, `"12%"`, `"15%"`. -/
theorem series_grid (amount : ℚ) (h : 0 < amount) :
    ((lump_series amount rates time_years).map (fun p => (p.rateLabel, p.year))
        = ["10%", "12%", "15%"].flatMap (fun lbl =>
            (List.range' 1 25).map (fun y => (lbl, y))))
    ∧ ((sip_series amount rates time_years).map
          (fun ps => ps.map (fun p => (p.rateLabel, p.year)))
        = some (["10%", "12%", "15%"].flatMap (fun lbl =>
            (List.range' 1 25).map (fun y => (lbl, y))))) := by
  have hr : ∀ r ∈ rates, r ≠ 0 := by
    intro r hmem
    fin_cases hmem <;> norm_num
  constructor
  · rw [lump_series_pos amount h, List.map_flatMap]
    simp [rates, time_years, List.map_map, Function.comp_def,
      rateLabelOf_ten, rateLabelOf_twelve, rateLabelOf_fifteen]
  · rw [sip_series_pos amount h rates hr, Option.map_some', List.map_flatMap]
    simp [rates, time_years, List.map_map, Function.comp_def,
      rateLabelOf_ten, rateLabelOf_twelve, rateLabelOf_fifteen]

theorem series_grid_witness :
    (lump_series 1 rates time_years).map (fun p => (p.rateLabel, p.year))
      = ["10%", "12%", "15%"].flatMap (fun lbl =>
          (List.range' 1 25).map (fun y => (lbl, y))) :=
  (series_grid 1 (by norm_num)).1

/-- C7: `generate_graph` has no "unmapped rate" error path: a series whose
rate label (here `"20%"`) is absent from the color mapping makes the
`colors[rate]` subscript fault with an uncaught `KeyError` (`none`), while
the mapped labels resolve normally.  The claim, which states a descriptive
error is produced instead, contradicts the code. -/
theorem unmapped_rate_keyerror :
    generate_graph_colors [⟨1, 100, "20%"⟩] colors = none ∧
    generate_graph_colors [⟨1, 100, "10%"⟩, ⟨2, 200, "12%"⟩, ⟨3, 300, "15%"⟩] colors
      = some ["blue", "yellow", "red"] := ⟨rfl, rfl⟩

/-- C8: for a fixed rate and principal, `compound_interest` is monotonically
non-decreasing in years when the principal and rate are non-negative, and
strictly increasing in years when both are positive. -/
theorem compound_interest_monotone (p r : ℚ) (t₁ t₂ : ℕ) :
    (0 ≤ p → 0 ≤ r → t₁ ≤ t₂ → compound_interest p r t₁ ≤ compound_interest p r t₂) ∧
    (0 < p → 0 < r → t₁ < t₂ → compound_interest p r t₁ < compound_interest p r t₂) := by
  constructor
  · intro hp hr h
    exact mul_le_mul_of_nonneg_left (pow_le_pow_right₀ (by linarith) h) hp
  · intro hp hr h
    exact mul_lt_mul_of_pos_left (pow_lt_pow_right₀ (by linarith) h) hp

theorem compound_interest_monotone_witness :
    compound_interest 1 1 0 ≤ compound_interest 1 1 1 ∧
      compound_interest 1 1 0 < compound_interest 1 1 1 :=
  ⟨(compound_interest_monotone 1 1 0 1).1 (by norm_num) (by norm_num) (by norm_num),
   (compound_interest_monotone 1 1 0 1).2 (by norm_num) (by norm_num) (by norm_num)⟩

/-- C9: for every positive contribution, positive rate and at least one
year, `sip_growth` succeeds and its value strictly exceeds the simple sum of
the contributions, `m * years * 12`. -/
theorem sip_growth_beats_simple_sum (m r : ℚ) (t : ℕ)
    (hm : 0 < m) (hr : 0 < r) (ht : 1 ≤ t) :
    ∃ v, sip_growth m r t = some v ∧ m * (t : ℚ) * 12 < v := by
  refine ⟨sip_value m r t, sip_growth_ne m r t (ne_of_gt hr), ?_⟩
  have hx : 0 < r / 12 := by positivity
  have hb : 1 + ((t * 12 : ℕ) : ℚ) * (r / 12) ≤ (1 + r / 12) ^ (t * 12) :=
    one_add_mul_le_pow (by linarith) _
  rw [sip_value]
  set x := r / 12 with hxdef
  set b := (1 + x) ^ (t * 12) with hbdef
  have h2 : ((t * 12 : ℕ) : ℚ) ≤ (b - 1) / x := by
    rw [le_div_iff₀ hx]; push_cast at hb ⊢; nlinarith
  push_cast at h2
  have ht' : (1 : ℚ) ≤ (t : ℚ) := by exact_mod_cast ht
  have h3 : m * ((t : ℚ) * 12) ≤ m * ((b - 1) / x) :=
    mul_le_mul_of_nonneg_left h2 (le_of_lt hm)
  have hpos : 0 < m * ((b - 1) / x) := lt_of_lt_of_le (by nlinarith) h3
  nlinarith [mul_pos hpos hx]

theorem sip_growth_beats_simple_sum_witness :
    ∃ v, sip_growth 1 12 1 = some v ∧ (1 : ℚ) * ((1 : ℕ) : ℚ) * 12 < v :=
  sip_growth_beats_simple_sum 1 12 1 (by norm_num) (by norm_num) (by norm_num)

end FastApiGrapher
